import Mathlib

/-!
Verification development for the Kitaab library-management client:
a shallow embedding of its borrowing / fine / payment engine
(eligibility evaluation, overdue classification, renewal policy,
fine accrual, payment reconciliation and card-number masking),
with theorems checking the specification's claims against it.

Monetary amounts are modelled as `Int` (JavaScript numbers used as
currency), counts as `Nat`, and instants as `Int` millisecond
timestamps (or `Int` day numbers where the algorithm works in days).
-/

namespace Kitaab

/-- Member borrow profile, from `UserBorrowInfo` in the user model
(`libraryId`, `name`, … string fields are omitted as irrelevant to the
engine): current borrowed count, maximum allowed, outstanding fines
total, overdue count, eligibility flag. -/
structure UserBorrowInfo where
  currentBorrowedCount : Nat
  maxBooksAllowed : Nat
  fines : Int
  overdueBooks : Nat
  isEligible : Bool
deriving Repr, DecidableEq

/-- Outcome of the selection validation in the books component: which
message (if any) `validateSelection` shows. -/
inductive BorrowEligibility where
  | limitExceeded
  | hasUnpaidFines
  | hasOverdueBooks
  | approved
deriving Repr, DecidableEq

/-- The constant `MAX_BOOKS_PER_USER = 5` of `BooksComponent`. -/
def MAX_BOOKS_PER_USER : Nat := 5

/-- `BooksComponent.validateSelection`: with a loaded borrow profile and
`totalSelected = getTotalSelectedCopies()`, checks in order: total after
borrow over the limit, then pending fines, then overdue books, else the
selection is accepted (error cleared). -/
def validateSelection (info : UserBorrowInfo) (totalSelected : Nat) :
    BorrowEligibility :=
  if info.currentBorrowedCount + totalSelected > MAX_BOOKS_PER_USER then
    .limitExceeded
  else if info.fines > 0 then
    .hasUnpaidFines
  else if info.overdueBooks > 0 then
    .hasOverdueBooks
  else
    .approved

/-- `UserDataService.getAvailableBorrowingSlots`: 0 when no borrow
profile is loaded, otherwise `Math.max(0, maxBooksAllowed -
currentBorrowedCount)` (JavaScript subtraction on numbers, then clamped
at zero). -/
def getAvailableBorrowingSlots (borrowInfo : Option UserBorrowInfo) : Int :=
  match borrowInfo with
  | none => 0
  | some info =>
      max 0 ((info.maxBooksAllowed : Int) - (info.currentBorrowedCount : Int))

/-- C1: eligibility is evaluated in a fixed order with the first failing
reason winning: the limit check dominates fines and overdue books; with
the limit respected, positive outstanding fines win; with fines clear,
a positive overdue count wins; approval holds exactly when all three
checks pass.  The two determinism examples from the specification are
included: a profile with 5 of 5 books borrowed and one more requested is
`limitExceeded`, and a profile with 2 borrowed and fines 50 is
`hasUnpaidFines`. -/
theorem validateSelection_fixed_order (info : UserBorrowInfo) (q : Nat) :
    (validateSelection info q = .limitExceeded ↔
      info.currentBorrowedCount + q > MAX_BOOKS_PER_USER) ∧
    (validateSelection info q = .hasUnpaidFines ↔
      info.currentBorrowedCount + q ≤ MAX_BOOKS_PER_USER ∧ info.fines > 0) ∧
    (validateSelection info q = .hasOverdueBooks ↔
      info.currentBorrowedCount + q ≤ MAX_BOOKS_PER_USER ∧
      ¬ info.fines > 0 ∧ info.overdueBooks > 0) ∧
    (validateSelection info q = .approved ↔
      info.currentBorrowedCount + q ≤ MAX_BOOKS_PER_USER ∧
      ¬ info.fines > 0 ∧ ¬ info.overdueBooks > 0) ∧
    validateSelection ⟨5, 5, 0, 0, true⟩ 1 = .limitExceeded ∧
    validateSelection ⟨2, 5, 50, 0, true⟩ 1 = .hasUnpaidFines := by
  unfold validateSelection MAX_BOOKS_PER_USER
  refine ⟨?_, ?_, ?_, ?_, by norm_num, by norm_num⟩ <;>
    split_ifs with h1 h2 h3 <;>
      simp_all

/-- C9: the reported number of available borrowing slots is
`max 0 (maxBooksAllowed - currentBorrowedCount)`, hence never negative
even when the borrowed count exceeds the maximum, and it is 0 when no
borrow profile is loaded. -/
theorem getAvailableBorrowingSlots_nonneg (borrowInfo : Option UserBorrowInfo) :
    0 ≤ getAvailableBorrowingSlots borrowInfo ∧
    getAvailableBorrowingSlots none = 0 ∧
    (∀ info : UserBorrowInfo,
      getAvailableBorrowingSlots (some info) =
        max 0 ((info.maxBooksAllowed : Int) - (info.currentBorrowedCount : Int))) ∧
    (∀ info : UserBorrowInfo, info.maxBooksAllowed < info.currentBorrowedCount →
      getAvailableBorrowingSlots (some info) = 0) := by
  refine ⟨?_, rfl, fun info => rfl, fun info h => ?_⟩
  · cases borrowInfo with
    | none => simp [getAvailableBorrowingSlots]
    | some info => simp [getAvailableBorrowingSlots]
  · simp only [getAvailableBorrowingSlots]
    rw [max_eq_left]
    omega

/-! ## Loan ledger: borrow history, overdue classification, renewals -/

/-- Loan status values, from `BorrowStatus` in the user model. -/
inductive BorrowStatus where
  | Borrowed
  | Returned
  | Overdue
  | Lost
  | Damaged
deriving Repr, DecidableEq

/-- One entry of the member's borrow history (`BorrowHistoryEntry`),
restricted to the fields the engine reads; dates are millisecond
timestamps, optional numeric fields are `Option Nat`. -/
structure BorrowHistoryEntry where
  borrowDate : Int
  dueDate : Int
  returnedDate : Option Int
  fineAmount : Int
  finePaid : Bool
  status : BorrowStatus
  renewalCount : Option Nat
  maxRenewalsAllowed : Option Nat
deriving Repr, DecidableEq

/-- `UserDataService.hasOverdueBooks`: some history entry has stored
status `Overdue`. -/
def hasOverdueBooks (borrowHistory : List BorrowHistoryEntry) : Bool :=
  borrowHistory.any (fun entry => entry.status == BorrowStatus.Overdue)

/-- `UserDataService.getOverdueBooksCount`: the number of history
entries with stored status `Overdue`. -/
def getOverdueBooksCount (borrowHistory : List BorrowHistoryEntry) : Nat :=
  (borrowHistory.filter (fun entry => entry.status == BorrowStatus.Overdue)).length

/-- The specification's computed overdue predicate (stated for
comparison with the source's stored-status check): a loan is overdue
exactly when its status is `Borrowed` and the current time is past its
due date. -/
def isOverdueComputed (now : Int) (entry : BorrowHistoryEntry) : Bool :=
  entry.status == BorrowStatus.Borrowed && decide (now > entry.dueDate)

/-- A loan still in stored status `Borrowed` whose due date (time 0)
has passed. -/
def entryBorrowedPastDue : BorrowHistoryEntry :=
  { borrowDate := -100, dueDate := 0, returnedDate := none, fineAmount := 0,
    finePaid := false, status := .Borrowed, renewalCount := some 0,
    maxRenewalsAllowed := some 2 }

/-- C6 counterexample: a history consisting of one loan with stored
status `Borrowed` and a past due date is overdue under the computed
predicate at time 1, yet `hasOverdueBooks` is `false` and
`getOverdueBooksCount` is 0 — the source checks only the separately
stored `Overdue` status. -/
theorem hasOverdueBooks_stored_status_counterexample :
    isOverdueComputed 1 entryBorrowedPastDue = true ∧
    hasOverdueBooks [entryBorrowedPastDue] = false ∧
    getOverdueBooksCount [entryBorrowedPastDue] = 0 := by
  decide

/-- C6 (amended): the overdue check classifies a loan as overdue exactly
when its stored status field is `Overdue`; `hasOverdueBooks` and
`getOverdueBooksCount` agree with each other, and both are invariant
under arbitrary changes of the entries' due dates — they rely on the
separately stored status, not on the computed predicate. -/
theorem hasOverdueBooks_stored_status (borrowHistory : List BorrowHistoryEntry)
    (f : BorrowHistoryEntry → Int) :
    (hasOverdueBooks borrowHistory = true ↔
      ∃ entry ∈ borrowHistory, entry.status = BorrowStatus.Overdue) ∧
    (hasOverdueBooks borrowHistory = true ↔
      0 < getOverdueBooksCount borrowHistory) ∧
    hasOverdueBooks (borrowHistory.map fun e => { e with dueDate := f e }) =
      hasOverdueBooks borrowHistory ∧
    getOverdueBooksCount (borrowHistory.map fun e => { e with dueDate := f e }) =
      getOverdueBooksCount borrowHistory := by
  refine ⟨?_, ?_, ?_, ?_⟩
  · simp [hasOverdueBooks, List.any_eq_true]
  · simp [hasOverdueBooks, getOverdueBooksCount, List.any_eq_true,
      List.length_pos, List.filter_eq_nil_iff]
  · unfold hasOverdueBooks
    rw [List.any_map]
    rfl
  · unfold getOverdueBooksCount
    rw [List.filter_map, List.length_map]
    rfl

/-- Milliseconds per day, the divisor `1000 * 60 * 60 * 24` used by
`getDaysUntilDue`. -/
def msPerDay : Int := 1000 * 60 * 60 * 24

/-- `MyBooksComponent.getDaysUntilDue`: `Math.ceil((dueDate - today) /
msPerDay)` on millisecond timestamps — the ceiling of the exact
quotient, written as the negated floor division of the negated
difference. -/
def getDaysUntilDue (today dueDate : Int) : Int :=
  -((today - dueDate) / msPerDay)

/-- JavaScript `x || d` on an optional numeric field: the default `d`
replaces both a missing value and an explicit 0. -/
def jsOrDefault (x : Option Nat) (d : Nat) : Nat :=
  match x with
  | none => d
  | some n => if n = 0 then d else n

/-- `MyBooksComponent.canExtendBook`: stored status is `Borrowed`,
`(renewalCount || 0) < (maxRenewalsAllowed || 2)`, and
`getDaysUntilDue(dueDate) > -7` (not too overdue). -/
def canExtendBook (today : Int) (entry : BorrowHistoryEntry) : Bool :=
  entry.status == BorrowStatus.Borrowed &&
  decide (jsOrDefault entry.renewalCount 0 < jsOrDefault entry.maxRenewalsAllowed 2) &&
  decide (getDaysUntilDue today entry.dueDate > -7)

/-- A borrowed loan due one day from time 0 whose `maxRenewalsAllowed`
is explicitly 0. -/
def entryZeroMaxRenewals : BorrowHistoryEntry :=
  { borrowDate := 0, dueDate := 1000 * 60 * 60 * 24, returnedDate := none,
    fineAmount := 0, finePaid := false, status := .Borrowed,
    renewalCount := some 0, maxRenewalsAllowed := some 0 }

/-- C5 counterexample: a borrowed, non-overdue loan with
`maxRenewalsAllowed = 0` and `renewalCount = 0` violates "renewal count
strictly below the maximum renewals allowed" (0 < 0 is false), yet
`canExtendBook` returns `true`: the JavaScript `||` default turns the
explicit maximum 0 into 2. -/
theorem canExtendBook_zero_max_counterexample :
    canExtendBook 0 entryZeroMaxRenewals = true ∧
    entryZeroMaxRenewals.renewalCount = some 0 ∧
    entryZeroMaxRenewals.maxRenewalsAllowed = some 0 ∧
    ¬ (0 : Nat) < 0 := by
  decide

/-- C5 (amended): extension is permitted exactly when the stored status
is `Borrowed`, the renewal count (0 when missing) is strictly below the
effective maximum renewals — where a missing or explicitly zero maximum
means the default 2 — and the loan is strictly less than 7 full days
past its due date; in particular every entry violating one of these
effective conditions has `canExtendBook = false`. -/
theorem canExtendBook_policy (today : Int) (entry : BorrowHistoryEntry) :
    canExtendBook today entry = true ↔
      entry.status = BorrowStatus.Borrowed ∧
      jsOrDefault entry.renewalCount 0 < jsOrDefault entry.maxRenewalsAllowed 2 ∧
      today - entry.dueDate < 7 * msPerDay := by
  unfold canExtendBook getDaysUntilDue msPerDay
  simp only [Bool.and_eq_true, beq_iff_eq, decide_eq_true_eq]
  constructor
  · rintro ⟨⟨h1, h2⟩, h3⟩
    exact ⟨h1, h2, by omega⟩
  · rintro ⟨h1, h2, h3⟩
    exact ⟨⟨h1, h2⟩, by omega⟩

/-! ## Fine accrual engine -/

/-- Modelled from the spec: the Fine Accrual Engine's `computeFine` is
not part of the client sources under `src/` — the client only carries
the `FineCalculationRule` data model (daily amount, grace period,
optional maximum) and triggers backend recalculation over
`POST /api/fines/recalculate`.  Following the specification's §4.3
algorithm: `daysOverdue = max(0, days(referenceDate) - days(dueDate) -
gracePeriodDays)`; `amount = min(daysOverdue * dailyRate,
maxFineAmount ?? +inf)`.  Dates are day numbers, amounts integers. -/
def computeFine (dueDate referenceDate : Int) (dailyRate : Int)
    (gracePeriodDays : Nat) (maxFineAmount : Option Int) : Int :=
  let daysOverdue : Int := max 0 (referenceDate - dueDate - gracePeriodDays)
  match maxFineAmount with
  | none => daysOverdue * dailyRate
  | some m => min (daysOverdue * dailyRate) m

/-- C3: the computed fine is `min(max(0, reference - due - grace) *
dailyRate, maxFineAmount or unbounded)`; it is never negative for
non-negative rate and cap; and on the specification's scenario — due
day 19732 (2024-01-10) at daily rate 5 with grace 0 — returning on day
19737 (2024-01-15) yields 25 while returning on the due day yields 0. -/
theorem computeFine_spec (dueDate referenceDate dailyRate : Int)
    (gracePeriodDays : Nat) (m : Int) (hr : 0 ≤ dailyRate) (hm : 0 ≤ m) :
    computeFine dueDate referenceDate dailyRate gracePeriodDays none =
      max 0 (referenceDate - dueDate - gracePeriodDays) * dailyRate ∧
    computeFine dueDate referenceDate dailyRate gracePeriodDays (some m) =
      min (max 0 (referenceDate - dueDate - gracePeriodDays) * dailyRate) m ∧
    0 ≤ computeFine dueDate referenceDate dailyRate gracePeriodDays none ∧
    0 ≤ computeFine dueDate referenceDate dailyRate gracePeriodDays (some m) ∧
    computeFine 19732 19737 5 0 none = 25 ∧
    computeFine 19732 19732 5 0 none = 0 := by
  have hd : 0 ≤ max 0 (referenceDate - dueDate - (gracePeriodDays : Int)) :=
    le_max_left 0 _
  refine ⟨rfl, rfl, mul_nonneg hd hr, le_min (mul_nonneg hd hr) hm, by decide, by decide⟩

/-- C3 witness at a concrete input. -/
theorem computeFine_spec_witness :
    (0 : Int) ≤ 5 ∧ (0 : Int) ≤ 100 ∧
    0 ≤ computeFine 19732 19737 5 0 (some 100) :=
  ⟨by norm_num, by norm_num,
    (computeFine_spec 19732 19737 5 0 100 (by norm_num) (by norm_num)).2.2.2.1⟩

/-- C4: for a fixed due date, non-negative daily rate, grace period and
non-negative optional cap, the computed fine is non-decreasing as the
reference date advances, and it is exactly 0 for every reference date
at most the due date plus the grace period. -/
theorem computeFine_monotone (dueDate dailyRate : Int) (gracePeriodDays : Nat)
    (maxFineAmount : Option Int) (hr : 0 ≤ dailyRate)
    (hm : ∀ m ∈ maxFineAmount, 0 ≤ m) :
    (∀ ref1 ref2 : Int, ref1 ≤ ref2 →
      computeFine dueDate ref1 dailyRate gracePeriodDays maxFineAmount ≤
        computeFine dueDate ref2 dailyRate gracePeriodDays maxFineAmount) ∧
    (∀ ref : Int, ref ≤ dueDate + gracePeriodDays →
      computeFine dueDate ref dailyRate gracePeriodDays maxFineAmount = 0) := by
  constructor
  · intro ref1 ref2 h12
    have hmono : max 0 (ref1 - dueDate - (gracePeriodDays : Int)) * dailyRate ≤
        max 0 (ref2 - dueDate - (gracePeriodDays : Int)) * dailyRate :=
      mul_le_mul_of_nonneg_right (max_le_max le_rfl (by omega)) hr
    cases maxFineAmount with
    | none => exact hmono
    | some m => exact min_le_min hmono le_rfl
  · intro ref href
    have hzero : max 0 (ref - dueDate - (gracePeriodDays : Int)) = 0 :=
      max_eq_left (by omega)
    cases maxFineAmount with
    | none =>
        show max 0 (ref - dueDate - (gracePeriodDays : Int)) * dailyRate = 0
        rw [hzero, zero_mul]
    | some m =>
        show min (max 0 (ref - dueDate - (gracePeriodDays : Int)) * dailyRate) m = 0
        rw [hzero, zero_mul]
        exact min_eq_left (hm m rfl)

/-- C4 witness at a concrete input. -/
theorem computeFine_monotone_witness :
    (0 : Int) ≤ 5 ∧ (-3 : Int) ≤ 0 + (0 : Nat) ∧
    computeFine 0 (-3) 5 0 (some 10) = 0 :=
  ⟨by norm_num, by norm_num,
    (computeFine_monotone 0 5 0 (some 10) (by norm_num)
        (by intro m hmem; simp [Option.mem_def] at hmem; omega)).2
      (-3) (by norm_num)⟩

/-! ## Fines and payment reconciliation -/

/-- Fine status values, from `FineStatus` in the fine model. -/
inductive FineStatus where
  | PENDING
  | PAID
  | WAIVED
  | OVERDUE
deriving Repr, DecidableEq

/-- A fine record (`FineRecord`), restricted to the fields the payment
flow reads: identifier, accrued total, status, and the identifier of
the payment that settled it. -/
structure FineRecord where
  id : Nat
  daysOverdue : Nat
  dailyFine : Int
  totalFine : Int
  status : FineStatus
  paymentId : Option Nat
deriving Repr, DecidableEq

/-- Terminal payment statuses, from `PaymentStatus` without the
non-terminal `PENDING`. -/
inductive GatewayStatus where
  | COMPLETED
  | FAILED
  | REFUNDED
  | CANCELLED
deriving Repr, DecidableEq

/-- Outcome of a reconciliation run. -/
inductive PayResult where
  | ok (paymentId : Nat)
  | amountMismatch
  | gatewayFailed (status : GatewayStatus)
deriving Repr, DecidableEq

/-- Sum of the current totals of the fines referenced by `fineIds`. -/
def referencedTotal (fines : List FineRecord) (fineIds : List Nat) : Int :=
  ((fines.filter fun f => decide (f.id ∈ fineIds)).map fun f => f.totalFine).sum

/-- Mark one fine `PAID` under the shared payment identifier if it is
referenced, leave it unchanged otherwise. -/
def markPaid (fineIds : List Nat) (freshPaymentId : Nat) (f : FineRecord) :
    FineRecord :=
  if f.id ∈ fineIds then
    { f with status := .PAID, paymentId := some freshPaymentId }
  else f

/-- Modelled from the spec: the Payment Reconciler's `pay` runs on the
backend behind `POST /api/payments/process`; the client's
`FineService.processPayment` only posts the request and refreshes its
caches.  Following the specification's §4.5 steps: validate that the
sum of the referenced fines' current totals equals `expectedTotal`
(reject `AmountMismatch` with no state change otherwise); on gateway
`COMPLETED`, atomically set every referenced fine to `PAID` with the
shared fresh payment identifier; on any other terminal status leave all
fines untouched and report the failure. -/
def pay (fines : List FineRecord) (fineIds : List Nat) (expectedTotal : Int)
    (gateway : GatewayStatus) (freshPaymentId : Nat) :
    List FineRecord × PayResult :=
  if referencedTotal fines fineIds ≠ expectedTotal then
    (fines, .amountMismatch)
  else
    match gateway with
    | .COMPLETED => (fines.map (markPaid fineIds freshPaymentId), .ok freshPaymentId)
    | g => (fines, .gatewayFailed g)

/-- C2: payment reconciliation is all-or-nothing — after `pay` returns,
either the run succeeded and every referenced fine in the resulting
store is `PAID` carrying the same payment identifier (with unreferenced
fines untouched), or the fine store is exactly as it was before the
call; no mix of paid and unpaid referenced fines is observable. -/
theorem pay_atomic (fines : List FineRecord) (fineIds : List Nat)
    (expectedTotal : Int) (gateway : GatewayStatus) (freshPaymentId : Nat) :
    (∃ p, (pay fines fineIds expectedTotal gateway freshPaymentId).2 = .ok p ∧
      (∀ f ∈ (pay fines fineIds expectedTotal gateway freshPaymentId).1,
        f.id ∈ fineIds → f.status = .PAID ∧ f.paymentId = some p) ∧
      (∀ f ∈ fines, f.id ∉ fineIds →
        f ∈ (pay fines fineIds expectedTotal gateway freshPaymentId).1)) ∨
    (pay fines fineIds expectedTotal gateway freshPaymentId).1 = fines := by
  by_cases h : referencedTotal fines fineIds ≠ expectedTotal
  · right
    simp [pay, h]
  · push_neg at h
    cases gateway with
    | COMPLETED =>
        have hpay : pay fines fineIds expectedTotal .COMPLETED freshPaymentId =
            (fines.map (markPaid fineIds freshPaymentId), .ok freshPaymentId) := by
          simp [pay, h]
        left
        rw [hpay]
        refine ⟨freshPaymentId, rfl, ?_, ?_⟩
        · intro f hf hid
          obtain ⟨g, hg, rfl⟩ := List.mem_map.mp hf
          by_cases hgid : g.id ∈ fineIds
          · simp [markPaid, hgid]
          · simp only [markPaid, hgid, ite_false, if_neg, not_false_iff] at hid
        · intro f hf hid
          exact List.mem_map.mpr ⟨f, hf, by simp [markPaid, hid]⟩
    | FAILED => right; simp [pay, h]
    | REFUNDED => right; simp [pay, h]
    | CANCELLED => right; simp [pay, h]

/-- State of the fines component relevant to payment submission: the
fines currently displayed (`filteredFines`) and the set of selected
fine identifiers (`selectedFines`). -/
structure FinesComponentState where
  filteredFines : List FineRecord
  selectedFines : List Nat

/-- `FinesComponent.getSelectedFines`: the displayed fines whose
identifiers are selected. -/
def getSelectedFines (s : FinesComponentState) : List FineRecord :=
  s.filteredFines.filter fun f => decide (f.id ∈ s.selectedFines)

/-- `FinesComponent.getSelectedTotal`: the sum of the selected fines'
`totalFine` values. -/
def getSelectedTotal (s : FinesComponentState) : Int :=
  ((getSelectedFines s).map fun f => f.totalFine).sum

/-- The fields of `PaymentRequest` the reconciliation contract is
about: the referenced fine identifiers and the expected total. -/
structure PaymentRequest where
  fineIds : List Nat
  totalAmount : Int
deriving Repr, DecidableEq

/-- The payment request constructed by `FinesComponent.onSubmitPayment`:
`fineIds = Array.from(selectedFines)` and
`totalAmount = getSelectedTotal()`. -/
def mkPaymentRequest (s : FinesComponentState) : PaymentRequest :=
  { fineIds := s.selectedFines, totalAmount := getSelectedTotal s }

/-- C7: for a non-empty selection, the submitted payment request
references exactly the selected identifiers and its `totalAmount` is
the sum of the `totalFine` values of exactly the displayed fines whose
identifiers are selected; and a `pay` call whose expected total differs
from the current sum of the referenced fines' totals is rejected with
`amountMismatch`, leaving every fine unchanged. -/
theorem paymentRequest_total_and_mismatch (s : FinesComponentState)
    (fines : List FineRecord) (fineIds : List Nat) (expectedTotal : Int)
    (gateway : GatewayStatus) (freshPaymentId : Nat)
    (hsel : s.selectedFines ≠ [])
    (hmis : referencedTotal fines fineIds ≠ expectedTotal) :
    (mkPaymentRequest s).fineIds = s.selectedFines ∧
    (mkPaymentRequest s).fineIds ≠ [] ∧
    (mkPaymentRequest s).totalAmount =
      ((getSelectedFines s).map fun f => f.totalFine).sum ∧
    (∀ f, f ∈ getSelectedFines s ↔
      f ∈ s.filteredFines ∧ f.id ∈ s.selectedFines) ∧
    pay fines fineIds expectedTotal gateway freshPaymentId =
      (fines, .amountMismatch) := by
  refine ⟨rfl, hsel, rfl, ?_, ?_⟩
  · intro f
    simp [getSelectedFines, List.mem_filter]
  · simp [pay, hmis]

/-- C7 witness at a concrete input. -/
theorem paymentRequest_total_and_mismatch_witness :
    ([1] : List Nat) ≠ [] ∧
    referencedTotal [] [] ≠ 1 ∧
    pay [] [] 1 GatewayStatus.COMPLETED 0 = ([], PayResult.amountMismatch) :=
  ⟨by decide, by decide,
    (paymentRequest_total_and_mismatch ⟨[], [1]⟩ [] [] 1 .COMPLETED 0
        (by decide) (by decide)).2.2.2.2⟩

/-! ## Statistics fallbacks on backend errors -/

/-- Payment method values, from `PaymentMethod` in the fine model. -/
inductive PaymentMethod where
  | card
  | upi
  | netbanking
  | wallet
  | cash
deriving Repr, DecidableEq

/-- Payment status values, from `PaymentStatus` in the fine model. -/
inductive PaymentStatus where
  | PENDING
  | COMPLETED
  | FAILED
  | REFUNDED
  | CANCELLED
deriving Repr, DecidableEq

/-- Monthly fine aggregate (`MonthlyFineData`). -/
structure MonthlyFineData where
  month : String
  year : Nat
  totalFines : Int
  totalPaid : Int
  totalWaived : Int
  averageDaysOverdue : Int
deriving Repr, DecidableEq

/-- Payment aggregate (`PaymentSummary`). -/
structure PaymentSummary where
  date : String
  amount : Int
  method : PaymentMethod
  status : PaymentStatus
  bookCount : Nat
deriving Repr, DecidableEq

/-- Fine statistics (`FineStatistics`); optional interface fields are
`Option`. -/
structure FineStatistics where
  totalOutstandingFines : Int
  totalOverdueBooks : Nat
  totalPaidFines : Int
  totalWaivedFines : Option Int
  averageDaysOverdue : Int
  averageFineAmount : Option Int
  finesByMonth : List MonthlyFineData
  paymentHistory : List PaymentSummary
  finesByCategory : Option (List (String × Int))
deriving Repr, DecidableEq

/-- Per-genre reading aggregate (`GenreStatistic`). -/
structure GenreStatistic where
  genre : String
  booksRead : Nat
  percentage : Int
deriving Repr, DecidableEq

/-- Achievement categories, from `Achievement.category`. -/
inductive AchievementCategory where
  | READING
  | PARTICIPATION
  | MILESTONE
  | SPECIAL
deriving Repr, DecidableEq

/-- An unlocked achievement (`Achievement`). -/
structure Achievement where
  id : String
  name : String
  description : String
  icon : String
  unlockedDate : Int
  category : AchievementCategory
deriving Repr, DecidableEq

/-- User statistics (`UserStatistics`); optional interface fields are
`Option`. -/
structure UserStatistics where
  totalBooksRead : Nat
  currentlyBorrowed : Nat
  overdueBooks : Nat
  totalFines : Int
  averageReadingTime : Int
  favoriteGenres : List GenreStatistic
  readingStreak : Nat
  monthlyReadingGoal : Nat
  booksReadThisMonth : Nat
  yearlyReadingGoal : Option Nat
  booksReadThisYear : Option Nat
  memberRanking : Option Nat
  achievementsUnlocked : Option (List Achievement)
deriving Repr, DecidableEq

/-- An HTTP failure as the services see it: its status code (0 for a
network failure). -/
structure HttpError where
  status : Nat
deriving Repr, DecidableEq

/-- The `defaultStats` object built in the error handler of
`FineService.getFineStatistics`. -/
def defaultFineStatistics : FineStatistics :=
  { totalOutstandingFines := 0
    totalOverdueBooks := 0
    totalPaidFines := 0
    totalWaivedFines := none
    averageDaysOverdue := 0
    averageFineAmount := none
    finesByMonth := []
    paymentHistory := []
    finesByCategory := none }

/-- `FineService.getFineStatistics`: the backend statistics pass
through on success; any error is swallowed and replaced by the zeroed
default object. -/
def getFineStatistics (response : Except HttpError FineStatistics) :
    FineStatistics :=
  match response with
  | .ok stats => stats
  | .error _ => defaultFineStatistics

/-- The `defaultStats` object built in the error handler of
`UserService.getUserStatistics` (the optional interface fields are all
explicitly assigned 0 or the empty list there). -/
def defaultUserStatistics : UserStatistics :=
  { totalBooksRead := 0
    currentlyBorrowed := 0
    overdueBooks := 0
    totalFines := 0
    averageReadingTime := 0
    favoriteGenres := []
    readingStreak := 0
    monthlyReadingGoal := 0
    booksReadThisMonth := 0
    yearlyReadingGoal := some 0
    booksReadThisYear := some 0
    memberRanking := some 0
    achievementsUnlocked := some [] }

/-- `UserService.getUserStatistics`: the backend statistics pass
through on success; any error is swallowed and replaced by the zeroed
default object. -/
def getUserStatistics (response : Except HttpError UserStatistics) :
    UserStatistics :=
  match response with
  | .ok stats => stats
  | .error _ => defaultUserStatistics

/-- C8: on any backend error, the statistics queries do not propagate
the failure: `getFineStatistics` yields an object with every total 0
and empty lists, and `getUserStatistics` likewise yields the zeroed
object, for every error cause — the failure is silently masked. -/
theorem statistics_fallback_zeroed (err : HttpError) :
    getFineStatistics (Except.error err) = defaultFineStatistics ∧
    (getFineStatistics (Except.error err)).totalOutstandingFines = 0 ∧
    (getFineStatistics (Except.error err)).totalOverdueBooks = 0 ∧
    (getFineStatistics (Except.error err)).totalPaidFines = 0 ∧
    (getFineStatistics (Except.error err)).averageDaysOverdue = 0 ∧
    (getFineStatistics (Except.error err)).finesByMonth = [] ∧
    (getFineStatistics (Except.error err)).paymentHistory = [] ∧
    getUserStatistics (Except.error err) = defaultUserStatistics ∧
    (getUserStatistics (Except.error err)).totalBooksRead = 0 ∧
    (getUserStatistics (Except.error err)).currentlyBorrowed = 0 ∧
    (getUserStatistics (Except.error err)).overdueBooks = 0 ∧
    (getUserStatistics (Except.error err)).totalFines = 0 ∧
    (getUserStatistics (Except.error err)).favoriteGenres = [] ∧
    (getUserStatistics (Except.error err)).achievementsUnlocked = some [] :=
  ⟨rfl, rfl, rfl, rfl, rfl, rfl, rfl, rfl, rfl, rfl, rfl, rfl, rfl, rfl⟩

/-! ## Card-number masking -/

/-- The constant mask prepended to the retained trailing characters. -/
def cardMask : String := "**** **** **** "

/-- The dummy payment form (`DummyPaymentForm`), reduced to the field
the masking reads; the card number is a character list, `none` for an
absent field. -/
structure DummyPaymentForm where
  cardNumber : Option (List Char)
deriving DecidableEq

/-- JavaScript `s.slice(-4)`: the last four characters, or the whole of
a shorter string. -/
def sliceLastFour (s : List Char) : List Char :=
  s.drop (s.length - 4)

/-- The card-number field of the request body built by
`FineService.processPayment`: `cardNumber ? mask + cardNumber.slice(-4)
: undefined`; an absent or empty (falsy) card number maps to `none`. -/
def maskedCardNumber (form : DummyPaymentForm) : Option (List Char) :=
  match form.cardNumber with
  | none => none
  | some s => if s = [] then none else some (cardMask.toList ++ sliceLastFour s)

theorem sliceLastFour_append (p t : List Char) (ht : t.length = 4) :
    sliceLastFour (p ++ t) = t := by
  unfold sliceLastFour
  rw [List.length_append, ht, Nat.add_sub_cancel, List.drop_left]

/-- C10: the outgoing request never carries the full card number — for
a present card number the field sent is the constant mask
`"**** **** **** "` followed by at most the last four characters, and
two card numbers sharing the same four trailing characters (differing
only in their leading part) produce identical outgoing fields. -/
theorem maskedCardNumber_masks (s p1 p2 t : List Char)
    (hs : s ≠ []) (ht : t.length = 4) :
    maskedCardNumber ⟨some s⟩ = some (cardMask.toList ++ sliceLastFour s) ∧
    (sliceLastFour s).length ≤ 4 ∧
    maskedCardNumber ⟨some (p1 ++ t)⟩ = maskedCardNumber ⟨some (p2 ++ t)⟩ := by
  have happend : ∀ p : List Char,
      maskedCardNumber ⟨some (p ++ t)⟩ = some (cardMask.toList ++ t) := by
    intro p
    have hne : p ++ t ≠ [] :=
      List.ne_nil_of_length_pos (by rw [List.length_append, ht]; omega)
    simp [maskedCardNumber, hne, sliceLastFour_append p t ht]
  refine ⟨?_, ?_, ?_⟩
  · simp [maskedCardNumber, hs]
  · unfold sliceLastFour
    rw [List.length_drop]
    omega
  · rw [happend p1, happend p2]

/-- C10 witness at a concrete input. -/
theorem maskedCardNumber_masks_witness :
    (['1', '2', '3', '4', '5'] : List Char) ≠ [] ∧
    (['2', '3', '4', '5'] : List Char).length = 4 ∧
    maskedCardNumber ⟨some (['1'] ++ ['2', '3', '4', '5'])⟩ =
      maskedCardNumber ⟨some (['9', '9'] ++ ['2', '3', '4', '5'])⟩ :=
  ⟨by decide, by decide,
    (maskedCardNumber_masks ['1', '2', '3', '4', '5'] ['1'] ['9', '9']
        ['2', '3', '4', '5'] (by decide) (by decide)).2.2⟩

end Kitaab
